import Mathlib

/-!
A shallow embedding of `bromine/browser.py` (a thin wrapper over a selenium
driver) and proofs about it.

Modelling conventions:
* Python exceptions are values of `Exc` (class name + message); raising is
  returning `Except.error`.
* The external selenium driver is modelled by `DriverState` (the outcome of
  each driver primitive at one instant) and a `Browser` holds the list of
  successive poll states (one per tick of `WebDriverWait`, the finite list
  standing for the polls that fit in the timeout window) plus the state seen
  by immediate, non-polling calls.
* Keyword-argument dicts are association lists `List (String × String)` in
  insertion order (Python dicts preserve insertion order and have unique keys).
* Mutation of `self._elem` is explicit state passing: operations on a
  `FutureElement` return the updated handle.
* Every operation that talks to the driver also returns a log of the driver
  calls it made (`List DriverCall`), so "does not query the driver" is the
  log being empty.
-/

namespace Bromine

/-- A DOM element as reported by the driver: identity plus its text. -/
structure Element where
  id : Nat
  text : String
deriving DecidableEq, Repr

/-- A Python exception: class name and message. -/
structure Exc where
  ty : String
  msg : String
deriving DecidableEq, Repr

/-- Selenium exception classes deriving from `WebDriverException`
(`TypeError`, `IndexError`, `AttributeError` are not among them). -/
def isWebDriverException (ty : String) : Bool :=
  ty = "WebDriverException" || ty = "NoSuchElementException" ||
  ty = "TimeoutException" || ty = "StaleElementReferenceException" ||
  ty = "ElementNotInteractableException" || ty = "InvalidSelectorException"

/-- A Python value returned by an expected-condition callable: an element, or
a boolean (selenium conditions return `False` when unsatisfied). -/
inductive Value where
  | elem (e : Element)
  | bool (b : Bool)
deriving DecidableEq, Repr

/-- Python truthiness of a condition result. -/
def Value.truthy : Value → Bool
  | .elem _ => true
  | .bool b => b

/-- The `selenium.webdriver.common.by.By` strategies. -/
inductive By where
  | ID | XPATH | LINK_TEXT | PARTIAL_LINK_TEXT
  | NAME | TAG_NAME | CLASS_NAME | CSS_SELECTOR
deriving DecidableEq, Repr

/-- The driver's primitives at one instant (one poll tick). -/
structure DriverState where
  /-- Model of `driver.find_element(by, value)`: one element or an exception. -/
  find : By → String → Except Exc Element
  /-- outcome of `EC.element_to_be_clickable((by, value))(driver)`. -/
  clickable : By → String → Except Exc Value
  /-- outcome of `EC.visibility_of_element_located((by, value))(driver)`. -/
  visible : By → String → Except Exc Value
  /-- Model of `driver.find_elements(by, value)`: all matches, in driver order. -/
  findElements : By → String → List Element
  /-- Model of `element.find_element(by, value)`: element-scoped single lookup. -/
  elemFind : Element → By → String → Except Exc Element
  /-- Model of `element.find_elements(by, value)`: element-scoped search. -/
  elemFindElements : Element → By → String → List Element

/-- The `Browser` of the source: a wrapped driver.  `states` are the driver
states seen by successive `WebDriverWait` polls, `now` the state seen by
immediate (non-polling) calls. -/
structure Browser where
  states : List DriverState
  now : DriverState

/-- One driver interaction, for the call logs. -/
inductive DriverCall where
  | findElement (sel : By) (val : String)
  | findElements (sel : By) (val : String)
  | condPoll (sel : By) (val : String)
  | elemFindElement (v : Value) (sel : By) (val : String)
  | elemFindElements (v : Value) (sel : By) (val : String)
  | elemClear (v : Value)
  | elemClick (v : Value)
  | elemSendKeys (v : Value) (keys : List String)
  | elemSelect (v : Value) (strategy : String) (val : String)
deriving DecidableEq, Repr

/-- Driver calls that look an element up (as opposed to interacting with an
already-held element). -/
def DriverCall.isLookup : DriverCall → Bool
  | .findElement _ _ => true
  | .findElements _ _ => true
  | .condPoll _ _ => true
  | .elemFindElement _ _ _ => true
  | .elemFindElements _ _ _ => true
  | _ => false

/-- Model of `Browser.selectors`: keyword → `By` strategy (source lines 42–51). -/
def selectors : List (String × By) :=
  [("id", .ID), ("xpath", .XPATH), ("link", .LINK_TEXT),
   ("partial_link", .PARTIAL_LINK_TEXT), ("name", .NAME), ("tag", .TAG_NAME),
   ("cls", .CLASS_NAME), ("css", .CSS_SELECTOR)]

/-- Model of `Browser._get_selector(kwargs, selectors)` (source lines 53–68): reject
any unrecognized key (first offender reported), then an empty mapping, then a
mapping with more than one key; otherwise map the single key through the
strategy table.  Polymorphic in the table's value type because `select` reuses
it with its own table. -/
def get_selector {α : Type} (selmap : List (String × α))
    (kwargs : List (String × String)) : Except String (α × String) :=
  match kwargs.find? (fun p => (selmap.lookup p.1).isNone) with
  | some p => .error ("bad selector: " ++ p.1)
  | none =>
    match kwargs with
    | [] => .error "no selector specified"
    | (k, v) :: rest =>
      if rest.isEmpty then
        match selmap.lookup k with
        | some sel => .ok (sel, v)
        | none => .error ("bad selector: " ++ k)
      else .error "only one selector, please"

/-- The two global wait conditions of `Browser.conditions` (source line 70). -/
inductive ECCond where
  | title_contains | title_is
deriving DecidableEq, Repr

/-- Model of `Browser.conditions`: keyword → expected-condition factory. -/
def conditions : List (String × ECCond) :=
  [("title_has", .title_contains), ("title", .title_is)]

/-- Model of `Browser._get_condition(kwargs)` (source lines 72–84): reject unrecognized
keys, then a mapping with more than one key, then an empty mapping; otherwise
return the condition and a one-element argument list. -/
def get_condition (kwargs : List (String × String)) :
    Except String (ECCond × List String) :=
  match kwargs.find? (fun p => (conditions.lookup p.1).isNone) with
  | some p => .error ("bad wait condition: " ++ p.1)
  | none =>
    if 1 < kwargs.length then .error "only one condition, please"
    else
      match kwargs with
      | [] => .error "no condition specified"
      | (k, v) :: _ =>
        match conditions.lookup k with
        | some c => .ok (c, [v])
        | none => .error ("bad wait condition: " ++ k)

/-- Python whitespace, as used by `str.split(None)` and `str.lstrip()`. -/
def pyIsSpace (c : Char) : Bool :=
  c = ' ' || c = '\t' || c = '\n' || c = '\r' || c = '\x0b' || c = '\x0c'

/-- Python `s.lstrip()`. -/
def lstrip (s : String) : String :=
  String.mk (s.data.dropWhile pyIsSpace)

/-- Python `s.split(None, 1)[0]`: the first whitespace-delimited token, or
`none` when there is no token (in which case indexing `[0]` raises). -/
def firstTok (s : String) : Option String :=
  let t := (s.data.dropWhile pyIsSpace).takeWhile (fun c => !pyIsSpace c)
  if t.isEmpty then none else some (String.mk t)

/-- Python `s.startswith(pre)`. -/
def startswith (s pre : String) : Bool :=
  pre.data.isPrefixOf s.data

/-- Python `needle in hay` on strings (substring containment). -/
def strContains (hay needle : String) : Bool :=
  (List.range (hay.length + 1)).any (fun i => needle.data.isPrefixOf (hay.data.drop i))

/-- Lines 94–100 of `FutureElement.wait`: detect a leading `not` token
(negation), strip the first three characters and left whitespace, and default
an empty remainder to `"present"`.  An all-whitespace condition string makes
`split(None, 1)[0]` raise `IndexError`. -/
def parseCondition (condition : String) : Except Exc (Bool × String) :=
  match firstTok condition with
  | none => .error ⟨"IndexError", "list index out of range"⟩
  | some tok =>
    let p := if tok = "not" then (true, lstrip (condition.drop 3))
             else (false, condition)
    .ok (p.1, if p.2 = "" then "present" else p.2)

/-- The four element wait conditions of `FutureElement.wait`
(source lines 102–111). -/
inductive CondMeth where
  | present | clickable | visible | text
deriving DecidableEq, Repr

/-- The condition-name dispatch of `FutureElement.wait` (lines 102–111). -/
def condMeth : String → Option CondMeth
  | "present" => some .present
  | "clickable" => some .clickable
  | "visible" => some .visible
  | "text" => some .text
  | _ => none

/-- Arity of `meth(*args)`: the three stock selenium conditions take only the
locator, so passing an extra argument raises `TypeError` at construction
(before any polling); `element_containing_text` accepts the extra argument. -/
def arityBad (m : CondMeth) (arg : Option String) : Bool :=
  match m, arg with
  | .text, _ => false
  | _, some _ => true
  | _, none => false

/-- The `element_containing_text` expectation (source lines 217–243): look the
element up; `StaleElementReferenceException` is swallowed and reported as
`False` (not yet satisfied); on success return the element when its text is
non-empty (no target) or contains the target, else `False`. -/
def element_containing_text (sel : By) (val : String) (text : Option String)
    (st : DriverState) : Except Exc Value :=
  match st.find sel val with
  | .ok elem =>
    match text with
    | none => if elem.text ≠ "" then .ok (.elem elem) else .ok (.bool false)
    | some t =>
        if strContains elem.text t then .ok (.elem elem) else .ok (.bool false)
  | .error ex =>
    if ex.ty = "StaleElementReferenceException" then .ok (.bool false)
    else .error ex

/-- Evaluate one poll of the chosen condition against one driver state.
`presence_of_element_located` is the driver's single-element lookup. -/
def evalCond (m : CondMeth) (sel : By) (val : String) (arg : Option String)
    (st : DriverState) : Except Exc Value :=
  match m with
  | .present =>
    match st.find sel val with
    | .ok e => .ok (.elem e)
    | .error ex => .error ex
  | .clickable => st.clickable sel val
  | .visible => st.visible sel val
  | .text => element_containing_text sel val arg st

/-- Model of `WebDriverWait.until` over the finite list of poll outcomes: return the
first truthy value; `NoSuchElementException` is in the default ignored list
and makes the loop retry; any other exception propagates; an exhausted list is
the timeout.  Also counts the polls actually made. -/
def untilLoop : List (Except Exc Value) → Except Exc Value × Nat
  | [] => (.error ⟨"TimeoutException", ""⟩, 0)
  | p :: rest =>
    match p with
    | .ok v =>
      if v.truthy then (.ok v, 1)
      else
        let r := untilLoop rest
        (r.1, r.2 + 1)
    | .error ex =>
      if ex.ty = "NoSuchElementException" then
        let r := untilLoop rest
        (r.1, r.2 + 1)
      else (.error ex, 1)

/-- Model of `WebDriverWait.until_not`: return the first falsy value; an ignored
exception counts as success (returning `True`); any other exception
propagates; an exhausted list is the timeout. -/
def untilNotLoop : List (Except Exc Value) → Except Exc Value × Nat
  | [] => (.error ⟨"TimeoutException", ""⟩, 0)
  | p :: rest =>
    match p with
    | .ok v =>
      if v.truthy then
        let r := untilNotLoop rest
        (r.1, r.2 + 1)
      else (.ok v, 1)
    | .error ex =>
      if ex.ty = "NoSuchElementException" then (.ok (.bool true), 1)
      else (.error ex, 1)

/-- Model of `ElemWrapper`: wraps whatever the driver wait produced — normally an
element, but `until_not` returns the falsy condition value, so a `Bool` can
end up wrapped too (a quirk of the source). -/
structure ElemWrapper where
  _elem : Value
deriving DecidableEq, Repr

/-- The lazy element handle `FutureElement`: browser, selector kwargs, and the
possibly-null cached resolution. -/
structure FutureElement where
  _browser : Browser
  _kwargs : List (String × String)
  _elem : Option ElemWrapper

/-- Python `if css is not None: kwargs["css"] = css` — the positional argument is
inserted into the keyword mapping under `"css"` (the key cannot already be
present: Python would have bound the `css` parameter or rejected the call). -/
def setCss (css : Option String) (kwargs : List (String × String)) :
    List (String × String) :=
  match css with
  | none => kwargs
  | some v => kwargs ++ [("css", v)]

/-- Model of `Browser.elem` (source lines 25–28): build the lazy handle; performs no
validation and never touches the driver. -/
def Browser.elem (b : Browser) (css : Option String)
    (kwargs : List (String × String)) : FutureElement :=
  ⟨b, setCss css kwargs, none⟩

/-- Model of `Browser.find` (source lines 32–36): validate the selector, then wrap
every element `driver.find_elements` reports, in driver order. -/
def Browser.find (b : Browser) (css : Option String)
    (kwargs : List (String × String)) :
    Except Exc (List ElemWrapper) × List DriverCall :=
  match get_selector selectors (setCss css kwargs) with
  | .error m => (.error ⟨"TypeError", m⟩, [])
  | .ok (sel, val) =>
    (.ok ((b.now.findElements sel val).map (fun e => ⟨.elem e⟩)),
     [.findElements sel val])

/-- Lexicographic order on `(str, str)` pairs, as Python `sorted` uses. -/
def pairLe (a b : String × String) : Bool :=
  decide (a.1 < b.1 ∨ (a.1 = b.1 ∧ a.2 ≤ b.2))

/-- Insert into a `pairLe`-sorted list. -/
def insortPair (x : String × String) :
    List (String × String) → List (String × String)
  | [] => [x]
  | y :: ys => if pairLe x y then x :: y :: ys else y :: insortPair x ys

/-- Python `sorted` on the kwargs items (insertion sort). -/
def sortPairs : List (String × String) → List (String × String)
  | [] => []
  | x :: xs => insortPair x (sortPairs xs)

/-- Python `", ".join("%s: %s" % p for p in sorted(kwargs.items()))`. -/
def selDesc (kwargs : List (String × String)) : String :=
  String.intercalate ", " ((sortPairs kwargs).map (fun p => p.1 ++ ": " ++ p.2))

/-- The enriched message built at source lines 124–134 when the driver wait
raises: selector description, optional `not `, condition, optional argument,
then the original error's class name and message. -/
def enrichedMsg (kwargs : List (String × String)) (neg : Bool) (cond : String)
    (arg : Option String) (e : Exc) : String :=
  "error waiting for '" ++ selDesc kwargs ++ "' to be " ++
    (if neg then "not " else "") ++ cond ++
    (match arg with | some a => " (" ++ a ++ ")" | none => "") ++
    ": " ++ e.ty ++ " " ++ e.msg

/-- The poll outcomes `FutureElement.wait` feeds to the driver wait: the
chosen condition evaluated at each successive driver state. -/
def wpolls (b : Browser) (m : CondMeth) (sel : By) (val : String)
    (arg : Option String) : List (Except Exc Value) :=
  b.states.map (evalCond m sel val arg)

/-- The driver-facing body of `FutureElement.wait` (source lines 93–136),
reading only the handle's browser and kwargs: parse/negate the condition,
dispatch it, resolve the selector, run `until` (or `until_not` when negated)
over the polls; a `WebDriverException` from the wait is re-raised with the
same type and the enriched message; any other exception propagates
unmodified. -/
def waitResolve (b : Browser) (kwargs : List (String × String))
    (condition : String) (arg : Option String) :
    Except Exc ElemWrapper × List DriverCall :=
  match parseCondition condition with
  | .error e => (.error e, [])
  | .ok (neg, cond) =>
    match condMeth cond with
    | none => (.error ⟨"TypeError", "bad condition: " ++ cond⟩, [])
    | some meth =>
      match get_selector selectors kwargs with
      | .error m => (.error ⟨"TypeError", m⟩, [])
      | .ok (sel, val) =>
        if arityBad meth arg then
          (.error ⟨"TypeError",
            "__init__() takes 2 positional arguments but 3 were given"⟩, [])
        else
          let r := if neg then untilNotLoop (wpolls b meth sel val arg)
                   else untilLoop (wpolls b meth sel val arg)
          let log := List.replicate r.2 (DriverCall.condPoll sel val)
          match r.1 with
          | .ok v => (.ok ⟨v⟩, log)
          | .error e =>
            if isWebDriverException e.ty then
              (.error ⟨e.ty, enrichedMsg kwargs neg cond arg e⟩, log)
            else (.error e, log)

/-- The method `FutureElement.wait` (source lines 93–138): run `waitResolve`
against the handle's browser and kwargs; on success store the resulting
wrapper in `_elem` and return it.  The previously cached `_elem` is never
read: the handle re-resolves on every `wait` call. -/
def FutureElement.wait (fe : FutureElement) (condition : String)
    (arg : Option String) :
    Except Exc (ElemWrapper × FutureElement) × List DriverCall :=
  match waitResolve fe._browser fe._kwargs condition arg with
  | (.ok w, log) => (.ok (w, { fe with _elem := some w }), log)
  | (.error e, log) => (.error e, log)

/-- Model of `FutureElement.__getattr__` (source lines 140–148), modelled as producing
the wrapper the attribute access is delegated to: when unresolved, do one
immediate (non-polling) `find_element` and cache the wrapper; when already
resolved, reuse the cached wrapper with no driver call.  Driver errors
propagate unmodified (`do_raise` re-raises the same exception). -/
def FutureElement.getattr (fe : FutureElement) :
    Except Exc (ElemWrapper × FutureElement) × List DriverCall :=
  match fe._elem with
  | some w => (.ok (w, fe), [])
  | none =>
    match get_selector selectors fe._kwargs with
    | .error m => (.error ⟨"TypeError", m⟩, [])
    | .ok (sel, val) =>
      match fe._browser.now.find sel val with
      | .ok e => (.ok (⟨.elem e⟩, { fe with _elem := some ⟨.elem e⟩ }),
                  [.findElement sel val])
      | .error ex => (.error ex, [.findElement sel val])

/-- Model of `ElemWrapper.elem` (source lines 173–180): single descendant lookup;
driver errors propagate unmodified.  Accessing `find_element` on a wrapped
`False` (the `until_not` quirk) raises `AttributeError`. -/
def ElemWrapper.elem (w : ElemWrapper) (st : DriverState) (css : Option String)
    (kwargs : List (String × String)) :
    Except Exc ElemWrapper × List DriverCall :=
  match get_selector selectors (setCss css kwargs) with
  | .error m => (.error ⟨"TypeError", m⟩, [])
  | .ok (sel, val) =>
    match w._elem with
    | .elem e =>
      match st.elemFind e sel val with
      | .ok e2 => (.ok ⟨.elem e2⟩, [.elemFindElement w._elem sel val])
      | .error ex => (.error ex, [.elemFindElement w._elem sel val])
    | .bool _ =>
      (.error ⟨"AttributeError", "bool object has no attribute find_element"⟩, [])

/-- Model of `ElemWrapper.find` (source lines 184–188): all matching descendants, in
driver order; empty sequence when none. -/
def ElemWrapper.find (w : ElemWrapper) (st : DriverState) (css : Option String)
    (kwargs : List (String × String)) :
    Except Exc (List ElemWrapper) × List DriverCall :=
  match get_selector selectors (setCss css kwargs) with
  | .error m => (.error ⟨"TypeError", m⟩, [])
  | .ok (sel, val) =>
    match w._elem with
    | .elem e =>
      (.ok ((st.elemFindElements e sel val).map (fun x => ⟨.elem x⟩)),
       [.elemFindElements w._elem sel val])
    | .bool _ =>
      (.error ⟨"AttributeError", "bool object has no attribute find_elements"⟩, [])

/-- Model of `ElemWrapper._select_selectors` (source lines 195–199), with the `Select`
methods represented by their names. -/
def _select_selectors : List (String × String) :=
  [("index", "select_by_index"), ("text", "select_by_visible_text"),
   ("value", "select_by_value")]

/-- Model of `ElemWrapper.select` (source lines 190–193): resolve the strategy with the
select table, then invoke the chosen `Select` method on the element. -/
def ElemWrapper.select (w : ElemWrapper)
    (kwargs : List (String × String)) : Except Exc Unit × List DriverCall :=
  match get_selector _select_selectors kwargs with
  | .error m => (.error ⟨"TypeError", m⟩, [])
  | .ok (sb, val) =>
    match w._elem with
    | .elem _ => (.ok (), [.elemSelect w._elem sb val])
    | .bool _ =>
      (.error ⟨"AttributeError", "bool object has no attribute tag_name"⟩, [])

/-- Model of `ElemWrapper.clear` (source lines 201–207): invoke the underlying
element's `clear`, then return the wrapper itself for chaining. -/
def ElemWrapper.clear (w : ElemWrapper) :
    Except Exc ElemWrapper × List DriverCall :=
  match w._elem with
  | .elem _ => (.ok w, [.elemClear w._elem])
  | .bool _ =>
    (.error ⟨"AttributeError", "bool object has no attribute clear"⟩, [])

/-- Python `element.click()` reached through `ElemWrapper.__getattr__`. -/
def ElemWrapper.click (w : ElemWrapper) : Except Exc Unit × List DriverCall :=
  match w._elem with
  | .elem _ => (.ok (), [.elemClick w._elem])
  | .bool _ =>
    (.error ⟨"AttributeError", "bool object has no attribute click"⟩, [])

/-- Python `element.send_keys(*args)` reached through `ElemWrapper.__getattr__`. -/
def ElemWrapper.send_keys (w : ElemWrapper) (keys : List String) :
    Except Exc Unit × List DriverCall :=
  match w._elem with
  | .elem _ => (.ok (), [.elemSendKeys w._elem keys])
  | .bool _ =>
    (.error ⟨"AttributeError", "bool object has no attribute send_keys"⟩, [])

/-- Model of `FutureElement.clear` (source lines 152–154): force a `clickable` wait,
then delegate. -/
def FutureElement.clear (fe : FutureElement) :
    Except Exc (ElemWrapper × FutureElement) × List DriverCall :=
  match fe.wait "clickable" none with
  | (.ok (w, fe2), log) =>
    match w.clear with
    | (.ok w2, log2) => (.ok (w2, fe2), log ++ log2)
    | (.error e, log2) => (.error e, log ++ log2)
  | (.error e, log) => (.error e, log)

/-- Model of `FutureElement.click` (source lines 156–158). -/
def FutureElement.click (fe : FutureElement) :
    Except Exc (Unit × FutureElement) × List DriverCall :=
  match fe.wait "clickable" none with
  | (.ok (w, fe2), log) =>
    match w.click with
    | (.ok u, log2) => (.ok (u, fe2), log ++ log2)
    | (.error e, log2) => (.error e, log ++ log2)
  | (.error e, log) => (.error e, log)

/-- Model of `FutureElement.send_keys` (source lines 160–162). -/
def FutureElement.send_keys (fe : FutureElement) (keys : List String) :
    Except Exc (Unit × FutureElement) × List DriverCall :=
  match fe.wait "clickable" none with
  | (.ok (w, fe2), log) =>
    match w.send_keys keys with
    | (.ok u, log2) => (.ok (u, fe2), log ++ log2)
    | (.error e, log2) => (.error e, log ++ log2)
  | (.error e, log) => (.error e, log)

/-- Model of `FutureElement.select` (source lines 164–166). -/
def FutureElement.select (fe : FutureElement)
    (kwargs : List (String × String)) :
    Except Exc (Unit × FutureElement) × List DriverCall :=
  match fe.wait "clickable" none with
  | (.ok (w, fe2), log) =>
    match w.select kwargs with
    | (.ok u, log2) => (.ok (u, fe2), log ++ log2)
    | (.error e, log2) => (.error e, log ++ log2)
  | (.error e, log) => (.error e, log)

/-! Concrete driver fixtures used by witnesses and counterexamples. -/

/-- A sample element with non-empty text. -/
def elemA : Element := ⟨1, "hello world"⟩

/-- A second, distinct sample element. -/
def elemB : Element := ⟨2, "other"⟩

/-- The driver's lookup-failure exception. -/
def noSuchExc : Exc := ⟨"NoSuchElementException", "no such element"⟩

/-- The driver's staleness exception. -/
def staleExc : Exc := ⟨"StaleElementReferenceException", "stale element reference"⟩

/-- A driver instant where nothing is found and no condition holds. -/
def stEmpty : DriverState where
  find := fun _ _ => .error noSuchExc
  clickable := fun _ _ => .ok (.bool false)
  visible := fun _ _ => .ok (.bool false)
  findElements := fun _ _ => []
  elemFind := fun _ _ _ => .error noSuchExc
  elemFindElements := fun _ _ _ => []

/-- A driver instant where lookups succeed; the clickable condition reports a
different element (`elemB`) than plain lookup (`elemA`). -/
def stFound : DriverState where
  find := fun _ _ => .ok elemA
  clickable := fun _ _ => .ok (.elem elemB)
  visible := fun _ _ => .ok (.elem elemA)
  findElements := fun _ _ => [elemA, elemB]
  elemFind := fun _ _ _ => .ok elemB
  elemFindElements := fun _ _ _ => [elemB]

/-- A driver instant whose element lookup raises staleness. -/
def stStale : DriverState := { stEmpty with find := fun _ _ => .error staleExc }

/-- A driver instant where the element is clickable. -/
def stClickable : DriverState :=
  { stEmpty with clickable := fun _ _ => .ok (.elem elemA) }

/-- A browser whose wait makes no polls (immediate timeout) and whose
immediate lookups find nothing. -/
def bEmpty : Browser := ⟨[], stEmpty⟩

/-- A browser over `stFound` for both polling and immediate calls. -/
def bFound : Browser := ⟨[stFound], stFound⟩

/-- A browser whose first poll raises staleness and whose second finds
`elemA`. -/
def bStaleThenFound : Browser := ⟨[stStale, stFound], stEmpty⟩

/-- A browser whose element is clickable on the first poll and not on the
second. -/
def bClickThenNot : Browser := ⟨[stClickable, stEmpty], stEmpty⟩

/-- A browser whose single poll reports the element clickable. -/
def bAlwaysClick : Browser := ⟨[stClickable], stEmpty⟩

/-- A wrapper around `elemA`. -/
def wA : ElemWrapper := ⟨.elem elemA⟩

/-- An already-resolved lazy handle caching `wA`. -/
def feResolved : FutureElement := ⟨bFound, [("css", "q")], some wA⟩

/-! Helper lemmas about selector and condition resolution. -/

/-- A one-key mapping with a recognized key resolves to its table entry. -/
theorem get_selector_single {α : Type} (selmap : List (String × α))
    (k v : String) (sel : α) (h : selmap.lookup k = some sel) :
    get_selector selmap [(k, v)] = .ok (sel, v) := by
  simp [get_selector, List.find?, h]

/-- An empty mapping, a mapping with more than one key, or a mapping with an
unrecognized key makes `_get_selector` raise. -/
theorem get_selector_invalid {α : Type} (selmap : List (String × α))
    (kwargs : List (String × String))
    (h : kwargs = [] ∨ 1 < kwargs.length ∨
         ∃ p ∈ kwargs, selmap.lookup p.1 = none) :
    ∃ m, get_selector selmap kwargs = .error m := by
  match kwargs, h with
  | [], _ => exact ⟨"no selector specified", rfl⟩
  | [(k, v)], h =>
    have hk : selmap.lookup k = none := by
      rcases h with h | h | ⟨p, hp, hnone⟩
      · cases h
      · simp at h
      · simp at hp
        rw [hp] at hnone
        exact hnone
    exact ⟨"bad selector: " ++ k, by simp [get_selector, List.find?, hk]⟩
  | a :: b :: t, _ =>
    cases hf : (a :: b :: t).find? (fun p => (selmap.lookup p.1).isNone) with
    | some p =>
      exact ⟨"bad selector: " ++ p.1, by simp [get_selector, hf]⟩
    | none =>
      exact ⟨"only one selector, please", by simp [get_selector, hf]⟩

/-- A one-key mapping with a recognized key resolves to its condition and a
one-element argument list. -/
theorem get_condition_single (k v : String) (c : ECCond)
    (h : conditions.lookup k = some c) :
    get_condition [(k, v)] = .ok (c, [v]) := by
  simp [get_condition, List.find?, h]

/-- An empty mapping, a mapping with more than one key, or a mapping with an
unrecognized key makes `_get_condition` raise. -/
theorem get_condition_invalid (kwargs : List (String × String))
    (h : kwargs = [] ∨ 1 < kwargs.length ∨
         ∃ p ∈ kwargs, conditions.lookup p.1 = none) :
    ∃ m, get_condition kwargs = .error m := by
  match kwargs, h with
  | [], _ => exact ⟨"no condition specified", rfl⟩
  | [(k, v)], h =>
    have hk : conditions.lookup k = none := by
      rcases h with h | h | ⟨p, hp, hnone⟩
      · cases h
      · simp at h
      · simp at hp
        rw [hp] at hnone
        exact hnone
    exact ⟨"bad wait condition: " ++ k, by simp [get_condition, List.find?, hk]⟩
  | a :: b :: t, _ =>
    cases hf : (a :: b :: t).find? (fun p => (conditions.lookup p.1).isNone) with
    | some p =>
      exact ⟨"bad wait condition: " ++ p.1, by simp [get_condition, hf]⟩
    | none =>
      exact ⟨"only one condition, please", by simp [get_condition, hf]⟩

/-- C1: selector resolution (`Browser._get_selector`) and condition resolution
(`Browser._get_condition`) both satisfy the one-key contract: a one-key
mapping with a recognized key resolves to the matching `(strategy, value)`
pair (resp. `(condition, [value])`); an empty mapping, a mapping with more
than one key, or a mapping containing an unrecognized key raises an argument
error and returns nothing. -/
theorem c1_selector_condition_contract (kwargs : List (String × String)) :
    (∀ k v sel, kwargs = [(k, v)] → selectors.lookup k = some sel →
      get_selector selectors kwargs = .ok (sel, v)) ∧
    ((kwargs = [] ∨ 1 < kwargs.length ∨
        ∃ p ∈ kwargs, selectors.lookup p.1 = none) →
      ∃ m, get_selector selectors kwargs = .error m) ∧
    (∀ k v c, kwargs = [(k, v)] → conditions.lookup k = some c →
      get_condition kwargs = .ok (c, [v])) ∧
    ((kwargs = [] ∨ 1 < kwargs.length ∨
        ∃ p ∈ kwargs, conditions.lookup p.1 = none) →
      ∃ m, get_condition kwargs = .error m) := by
  refine ⟨?_, ?_, ?_, ?_⟩
  · intro k v sel hkw h
    subst hkw
    exact get_selector_single selectors k v sel h
  · exact get_selector_invalid selectors kwargs
  · intro k v c hkw h
    subst hkw
    exact get_condition_single k v c h
  · exact get_condition_invalid kwargs

/-- Witness for C1 at concrete mappings: `{css: "x"}` resolves, `{}` and
`{css: "x", id: "y"}` and `{bogus: "x"}` raise; `{title: "t"}` resolves,
`{}` and `{bogus: "t"}` raise. -/
theorem c1_selector_condition_contract_witness :
    get_selector selectors [("css", "x")] = .ok (By.CSS_SELECTOR, "x") ∧
    (∃ m, get_selector selectors ([] : List (String × String)) = .error m) ∧
    (∃ m, get_selector selectors [("css", "x"), ("id", "y")] = .error m) ∧
    (∃ m, get_selector selectors [("bogus", "x")] = .error m) ∧
    get_condition [("title", "t")] = .ok (.title_is, ["t"]) ∧
    (∃ m, get_condition [("bogus", "t")] = .error m) := by
  refine ⟨?_, ?_, ?_, ?_, ?_, ?_⟩
  · exact (c1_selector_condition_contract [("css", "x")]).1 "css" "x"
      By.CSS_SELECTOR rfl rfl
  · exact (c1_selector_condition_contract []).2.1 (Or.inl rfl)
  · exact (c1_selector_condition_contract [("css", "x"), ("id", "y")]).2.1
      (Or.inr (Or.inl (by decide)))
  · exact (c1_selector_condition_contract [("bogus", "x")]).2.1
      (Or.inr (Or.inr ⟨("bogus", "x"), by simp, rfl⟩))
  · exact (c1_selector_condition_contract [("title", "t")]).2.2.1 "title" "t"
      .title_is rfl rfl
  · exact (c1_selector_condition_contract [("bogus", "t")]).2.2.2
      (Or.inr (Or.inr ⟨("bogus", "t"), by simp, rfl⟩))

/-- C10: a non-None positional argument to `Browser.elem`, `Browser.find`,
`ElemWrapper.elem` or `ElemWrapper.find` is inserted into the keyword mapping
under the key `"css"`, so `elem(v)` behaves identically to `elem(css=v)`;
supplying the positional argument together with any other strategy keyword
leaves a two-strategy mapping, on which selector resolution raises an
argument error. -/
theorem c10_positional_css (b : Browser) (st : DriverState) (w : ElemWrapper)
    (v : String) (kwargs : List (String × String)) :
    Browser.elem b (some v) [] = Browser.elem b none [("css", v)] ∧
    Browser.find b (some v) [] = Browser.find b none [("css", v)] ∧
    ElemWrapper.elem w st (some v) [] = ElemWrapper.elem w st none [("css", v)] ∧
    ElemWrapper.find w st (some v) [] = ElemWrapper.find w st none [("css", v)] ∧
    Browser.elem b (some v) kwargs = ⟨b, kwargs ++ [("css", v)], none⟩ ∧
    (kwargs ≠ [] →
      ∃ m, get_selector selectors (setCss (some v) kwargs) = .error m) := by
  refine ⟨rfl, rfl, rfl, rfl, rfl, ?_⟩
  intro hne
  apply get_selector_invalid
  refine Or.inr (Or.inl ?_)
  cases kwargs with
  | nil => exact absurd rfl hne
  | cons a t =>
    simp [setCss]

/-- Witness for C10: with the concrete browser `bEmpty`, `elem("x")` equals
`elem(css="x")`, and adding `id="y"` makes selector resolution raise. -/
theorem c10_positional_css_witness :
    Browser.elem bEmpty (some "x") [] = Browser.elem bEmpty none [("css", "x")] ∧
    (∃ m, get_selector selectors (setCss (some "x") [("id", "y")]) = .error m) := by
  have h := c10_positional_css bEmpty stEmpty wA "x" [("id", "y")]
  exact ⟨h.1, h.2.2.2.2.2 (by decide)⟩

/-- C3 counterexample: `Browser.elem` called with the invalid selector mapping
`{bogus: "x"}` does not raise at the call site — it returns a lazy handle
carrying the invalid mapping unchanged (its type has no error outcome, since
the source constructor performs no validation); the mapping is indeed invalid,
and the argument error only surfaces later, at the handle's first
resolution. -/
theorem c3_counterexample :
    Browser.elem bEmpty none [("bogus", "x")] =
      (⟨bEmpty, [("bogus", "x")], none⟩ : FutureElement) ∧
    get_selector selectors [("bogus", "x")] = .error "bad selector: bogus" ∧
    (Browser.elem bEmpty none [("bogus", "x")]).getattr =
      (.error ⟨"TypeError", "bad selector: bogus"⟩, []) :=
  ⟨rfl, rfl, rfl⟩

/-- C3 amended: for an invalid selector mapping, `Browser.find` (and the
`ElemWrapper` lookups) raise the argument error at the call site, but
`Browser.elem` performs no validation and returns the handle; the argument
error is then raised at the handle's first resolution (explicit wait or
attribute access), before any driver query (empty call log) and without any
retry. -/
theorem c3_amended_deferred_validation (b : Browser) (st : DriverState)
    (w : ElemWrapper) (css : Option String) (kwargs : List (String × String))
    (m : String) (h : get_selector selectors (setCss css kwargs) = .error m) :
    Browser.find b css kwargs = (.error ⟨"TypeError", m⟩, []) ∧
    (Browser.elem b css kwargs).getattr = (.error ⟨"TypeError", m⟩, []) ∧
    (Browser.elem b css kwargs).wait "present" none =
      (.error ⟨"TypeError", m⟩, []) ∧
    ElemWrapper.find w st css kwargs = (.error ⟨"TypeError", m⟩, []) ∧
    ElemWrapper.elem w st css kwargs = (.error ⟨"TypeError", m⟩, []) := by
  have hp : parseCondition "present" = .ok (false, "present") := rfl
  have hc : condMeth "present" = some CondMeth.present := rfl
  refine ⟨?_, ?_, ?_, ?_, ?_⟩
  · simp [Browser.find, h]
  · simp [FutureElement.getattr, Browser.elem, h]
  · simp [FutureElement.wait, waitResolve, Browser.elem, hp, hc, h]
  · simp [ElemWrapper.find, h]
  · simp [ElemWrapper.elem, h]

/-- Witness for C3 amended: with the invalid mapping `{bogus: "x"}`, `find`
raises at the call and the handle's resolution raises without touching the
driver. -/
theorem c3_amended_witness :
    get_selector selectors (setCss none [("bogus", "x")]) =
      .error "bad selector: bogus" ∧
    Browser.find bEmpty none [("bogus", "x")] =
      (.error ⟨"TypeError", "bad selector: bogus"⟩, []) ∧
    (Browser.elem bEmpty none [("bogus", "x")]).wait "present" none =
      (.error ⟨"TypeError", "bad selector: bogus"⟩, []) := by
  have h := c3_amended_deferred_validation bEmpty stEmpty wA none
    [("bogus", "x")] "bad selector: bogus" rfl
  exact ⟨rfl, h.1, h.2.2.1⟩

/-- C6: on a lazy handle whose cached element is non-null, plain attribute
access (`__getattr__`) delegates to the same cached resolved wrapper, leaves
the handle unchanged, and issues no driver call. -/
theorem c6_cached_getattr (fe : FutureElement) (w : ElemWrapper)
    (h : fe._elem = some w) :
    fe.getattr = (.ok (w, fe), []) := by
  simp [FutureElement.getattr, h]

/-- Witness for C6: the resolved handle `feResolved` reuses its cached
wrapper `wA`. -/
theorem c6_cached_getattr_witness :
    feResolved._elem = some wA ∧
    feResolved.getattr = (.ok (wA, feResolved), []) :=
  ⟨rfl, c6_cached_getattr feResolved wA rfl⟩

/-- C8: with a valid single-strategy selector, `Browser.find` and
`ElemWrapper.find` return one resolved wrapper per element the driver
reports, in driver order — in particular an empty sequence (not an error)
when the driver reports none. -/
theorem c8_find_returns_all (b : Browser) (st : DriverState) (w : ElemWrapper)
    (e : Element) (css : Option String) (kwargs : List (String × String))
    (sel : By) (val : String)
    (hsel : get_selector selectors (setCss css kwargs) = .ok (sel, val))
    (hw : w._elem = .elem e) :
    Browser.find b css kwargs =
      (.ok ((b.now.findElements sel val).map (fun x => ⟨.elem x⟩)),
       [.findElements sel val]) ∧
    (b.now.findElements sel val = [] →
      (Browser.find b css kwargs).1 = .ok []) ∧
    ElemWrapper.find w st css kwargs =
      (.ok ((st.elemFindElements e sel val).map (fun x => ⟨.elem x⟩)),
       [.elemFindElements w._elem sel val]) ∧
    (st.elemFindElements e sel val = [] →
      (ElemWrapper.find w st css kwargs).1 = .ok []) := by
  refine ⟨?_, ?_, ?_, ?_⟩
  · simp [Browser.find, hsel]
  · intro hnil
    simp [Browser.find, hsel, hnil]
  · simp [ElemWrapper.find, hsel, hw]
  · intro hnil
    simp [ElemWrapper.find, hsel, hw, hnil]

/-- Witness for C8: a driver reporting no matches makes both `find`s return
the empty sequence. -/
theorem c8_find_returns_all_witness :
    get_selector selectors (setCss (some "x") []) = .ok (By.CSS_SELECTOR, "x") ∧
    wA._elem = Value.elem elemA ∧
    (Browser.find bEmpty (some "x") []).1 = .ok [] ∧
    (ElemWrapper.find wA stEmpty (some "x") []).1 = .ok [] := by
  have h := c8_find_returns_all bEmpty stEmpty wA elemA (some "x") []
    By.CSS_SELECTOR "x" rfl rfl
  exact ⟨rfl, rfl, h.2.1 rfl, h.2.2.2 rfl⟩

/-- C9: `ElemWrapper.clear` invokes the underlying element's `clear` and
returns the very same wrapper, so a chained `clear().send_keys(...)` operates
on the same wrapped element and the combined call log contains no element
lookup. -/
theorem c9_clear_chains (w : ElemWrapper) (e : Element)
    (h : w._elem = .elem e) (ks : List String) :
    w.clear = (.ok w, [.elemClear w._elem]) ∧
    w.send_keys ks = (.ok (), [.elemSendKeys w._elem ks]) ∧
    ((w.clear).2 ++ (w.send_keys ks).2).all (fun c => !c.isLookup) = true := by
  refine ⟨?_, ?_, ?_⟩
  · simp [ElemWrapper.clear, h]
  · simp [ElemWrapper.send_keys, h]
  · simp [ElemWrapper.clear, ElemWrapper.send_keys, h, DriverCall.isLookup]

/-- Witness for C9: chaining on the concrete wrapper `wA`. -/
theorem c9_clear_chains_witness :
    wA._elem = Value.elem elemA ∧
    (wA.clear = (.ok wA, [.elemClear wA._elem]) ∧
     wA.send_keys ["hi"] = (.ok (), [.elemSendKeys wA._elem ["hi"]]) ∧
     ((wA.clear).2 ++ (wA.send_keys ["hi"]).2).all (fun c => !c.isLookup)
       = true) :=
  ⟨rfl, c9_clear_chains wA elemA rfl ["hi"]⟩

/-- Explicit `wait` never reads the cached `_elem`: it behaves exactly as on
the cache-erased handle. -/
theorem wait_ignores_cache (fe : FutureElement) (c : String)
    (a : Option String) :
    fe.wait c a = FutureElement.wait ⟨fe._browser, fe._kwargs, none⟩ c a := by
  cases fe with
  | mk b kw el => simp only [FutureElement.wait]

/-- The interaction helper `clear` routes through `wait("clickable")`, hence
also ignores the cache. -/
theorem clear_ignores_cache (fe : FutureElement) :
    fe.clear = FutureElement.clear ⟨fe._browser, fe._kwargs, none⟩ := by
  have hw := wait_ignores_cache fe "clickable" none
  simp only [FutureElement.clear, hw]

/-- The interaction helper `click` routes through `wait("clickable")`, hence
also ignores the cache. -/
theorem click_ignores_cache (fe : FutureElement) :
    fe.click = FutureElement.click ⟨fe._browser, fe._kwargs, none⟩ := by
  have hw := wait_ignores_cache fe "clickable" none
  simp only [FutureElement.click, hw]

/-- The interaction helper `send_keys` routes through `wait("clickable")`,
hence also ignores the cache. -/
theorem send_keys_ignores_cache (fe : FutureElement) (ks : List String) :
    fe.send_keys ks = FutureElement.send_keys ⟨fe._browser, fe._kwargs, none⟩ ks := by
  have hw := wait_ignores_cache fe "clickable" none
  simp only [FutureElement.send_keys, hw]

/-- The interaction helper `select` routes through `wait("clickable")`, hence
also ignores the cache. -/
theorem select_ignores_cache (fe : FutureElement)
    (kw : List (String × String)) :
    fe.select kw = FutureElement.select ⟨fe._browser, fe._kwargs, none⟩ kw := by
  have hw := wait_ignores_cache fe "clickable" none
  simp only [FutureElement.select, hw]

/-- C2 counterexample: on the already-resolved handle `feResolved` (cached
wrapper around `elemA`), a subsequent `wait("clickable")` queries the driver
again (one condition poll in the log) and replaces the cached wrapper with a
wrapper around `elemB` — so resolution is not at-most-once and the resolved
state is not terminal. -/
theorem c2_counterexample :
    feResolved._elem = some wA ∧
    feResolved.wait "clickable" none =
      (.ok (⟨.elem elemB⟩, ⟨bFound, [("css", "q")], some ⟨.elem elemB⟩⟩),
       [.condPoll .CSS_SELECTOR "q"]) ∧
    (⟨Value.elem elemB⟩ : ElemWrapper) ≠ wA ∧
    ([DriverCall.condPoll .CSS_SELECTOR "q"] : List DriverCall) ≠ [] :=
  ⟨rfl, rfl, by decide, by decide⟩

/-- C2 amended: on a resolved handle, plain attribute access (`__getattr__`)
does reuse the cached wrapper, without driver queries and without changing
the handle; but explicit `wait` — and the interaction helpers
clear/click/send_keys/select, which call `wait("clickable")` — ignore the
cached resolution entirely: they behave exactly as on an unresolved handle,
querying the driver anew and overwriting the cache with the fresh result. -/
theorem c2_amended_resolution_not_terminal (fe : FutureElement)
    (w : ElemWrapper) (h : fe._elem = some w) (c : String) (a : Option String)
    (ks : List String) (kw : List (String × String)) :
    fe.getattr = (.ok (w, fe), []) ∧
    fe.wait c a = FutureElement.wait ⟨fe._browser, fe._kwargs, none⟩ c a ∧
    fe.clear = FutureElement.clear ⟨fe._browser, fe._kwargs, none⟩ ∧
    fe.click = FutureElement.click ⟨fe._browser, fe._kwargs, none⟩ ∧
    fe.send_keys ks = FutureElement.send_keys ⟨fe._browser, fe._kwargs, none⟩ ks ∧
    fe.select kw = FutureElement.select ⟨fe._browser, fe._kwargs, none⟩ kw := by
  refine ⟨?_, wait_ignores_cache fe c a, clear_ignores_cache fe,
    click_ignores_cache fe, send_keys_ignores_cache fe ks,
    select_ignores_cache fe kw⟩
  simp [FutureElement.getattr, h]

/-- Witness for C2 amended: the resolved handle `feResolved` with its cached
wrapper `wA`. -/
theorem c2_amended_witness :
    feResolved._elem = some wA ∧
    (feResolved.getattr = (.ok (wA, feResolved), []) ∧
     feResolved.wait "present" none =
       FutureElement.wait ⟨feResolved._browser, feResolved._kwargs, none⟩
         "present" none ∧
     feResolved.clear =
       FutureElement.clear ⟨feResolved._browser, feResolved._kwargs, none⟩ ∧
     feResolved.click =
       FutureElement.click ⟨feResolved._browser, feResolved._kwargs, none⟩ ∧
     feResolved.send_keys ["k"] =
       FutureElement.send_keys ⟨feResolved._browser, feResolved._kwargs, none⟩
         ["k"] ∧
     feResolved.select [("index", "0")] =
       FutureElement.select ⟨feResolved._browser, feResolved._kwargs, none⟩
         [("index", "0")]) :=
  ⟨rfl, c2_amended_resolution_not_terminal feResolved wA rfl "present" none
    ["k"] [("index", "0")]⟩

/-- C4: when the driver wait inside `FutureElement.wait` raises a
`WebDriverException`, the error re-raised to the caller keeps the same
exception type, and its message is exactly the enrichment containing the
selector description (sorted strategy/value pairs), a `"not "` marker exactly
when the condition was negated, the condition name, the argument (in
parentheses) exactly when one was given, and the original error's class name
and message; on success the resolved wrapper is cached in the handle and
returned. -/
theorem c4_enriched_wait_error (fe : FutureElement) (condition : String)
    (arg : Option String) (neg : Bool) (cond : String) (meth : CondMeth)
    (sel : By) (val : String)
    (hparse : parseCondition condition = .ok (neg, cond))
    (hmeth : condMeth cond = some meth)
    (hsel : get_selector selectors fe._kwargs = .ok (sel, val))
    (harity : arityBad meth arg = false) :
    (∀ e n,
      (if neg then untilNotLoop (wpolls fe._browser meth sel val arg)
       else untilLoop (wpolls fe._browser meth sel val arg)) = (.error e, n) →
      isWebDriverException e.ty = true →
      fe.wait condition arg =
        (.error ⟨e.ty,
           "error waiting for '" ++ selDesc fe._kwargs ++ "' to be " ++
           (if neg then "not " else "") ++ cond ++
           (match arg with | some s => " (" ++ s ++ ")" | none => "") ++
           ": " ++ e.ty ++ " " ++ e.msg⟩,
         List.replicate n (DriverCall.condPoll sel val))) ∧
    (∀ v n,
      (if neg then untilNotLoop (wpolls fe._browser meth sel val arg)
       else untilLoop (wpolls fe._browser meth sel val arg)) = (.ok v, n) →
      fe.wait condition arg =
        (.ok (⟨v⟩, ⟨fe._browser, fe._kwargs, some ⟨v⟩⟩),
         List.replicate n (DriverCall.condPoll sel val))) := by
  constructor
  · intro e n hr hw
    cases arg <;>
      simp [FutureElement.wait, waitResolve, hparse, hmeth, hsel, harity, hr,
        hw, enrichedMsg]
  · intro v n hr
    simp [FutureElement.wait, waitResolve, hparse, hmeth, hsel, harity, hr]

/-- Witness for C4: with a browser that makes no polls, `wait("present")` on
a `{css: "x"}` handle times out and the `TimeoutException` is re-raised with
the enriched message. -/
theorem c4_enriched_wait_error_witness :
    (Browser.elem bEmpty none [("css", "x")]).wait "present" none =
      (.error ⟨"TimeoutException",
         "error waiting for 'css: x' to be present: TimeoutException "⟩,
       ([] : List DriverCall)) :=
  (c4_enriched_wait_error (Browser.elem bEmpty none [("css", "x")]) "present"
    none false "present" .present By.CSS_SELECTOR "x" rfl rfl rfl rfl).1
    ⟨"TimeoutException", ""⟩ 0 rfl rfl

/-- When every poll reports a truthy value, `until_not` exhausts all polls
and times out. -/
theorem untilNotLoop_timeout (polls : List (Except Exc Value))
    (h : ∀ p ∈ polls, ∀ v, p = .ok v → v.truthy = true)
    (hok : ∀ p ∈ polls, ∃ v, p = .ok v) :
    untilNotLoop polls = (.error ⟨"TimeoutException", ""⟩, polls.length) := by
  induction polls with
  | nil => rfl
  | cons p rest ih =>
    obtain ⟨v, rfl⟩ := hok p (List.mem_cons_self p rest)
    have ht : v.truthy = true := h _ (List.mem_cons_self _ _) v rfl
    have ih2 := ih (fun q hq w hw => h q (List.mem_cons_of_mem _ hq) w hw)
      (fun q hq => hok q (List.mem_cons_of_mem _ hq))
    simp [untilNotLoop, ht, ih2]

/-- Over exception-free polls, `until_not` succeeds exactly when some poll
reports a falsy value. -/
theorem untilNotLoop_fst_ok_iff (polls : List (Except Exc Value))
    (hok : ∀ p ∈ polls, ∃ v, p = .ok v) :
    (∃ v, (untilNotLoop polls).1 = .ok v) ↔
      ∃ p ∈ polls, ∃ v, p = .ok v ∧ v.truthy = false := by
  induction polls with
  | nil =>
    constructor
    · rintro ⟨v, hv⟩
      cases hv
    · rintro ⟨p, hp, _⟩
      cases hp
  | cons p rest ih =>
    obtain ⟨v, rfl⟩ := hok p (List.mem_cons_self p rest)
    have ih2 := ih (fun q hq => hok q (List.mem_cons_of_mem _ hq))
    cases ht : v.truthy with
    | true =>
      have hstep : untilNotLoop (Except.ok v :: rest) =
          ((untilNotLoop rest).1, (untilNotLoop rest).2 + 1) := by
        simp [untilNotLoop, ht]
      rw [hstep]
      simp only [List.mem_cons]
      constructor
      · intro hl
        rcases ih2.mp hl with ⟨q, hq, w, hw, hwt⟩
        exact ⟨q, Or.inr hq, w, hw, hwt⟩
      · rintro ⟨q, hq | hq, w, hw, hwt⟩
        · subst hq
          injection hw with h2
          rw [← h2, ht] at hwt
          cases hwt
        · exact ih2.mpr ⟨q, hq, w, hw, hwt⟩
    | false =>
      have hstep : untilNotLoop (Except.ok v :: rest) = (.ok v, 1) := by
        simp [untilNotLoop, ht]
      rw [hstep]
      constructor
      · intro _
        exact ⟨.ok v, List.mem_cons_self _ _, v, rfl, ht⟩
      · intro _
        exact ⟨v, rfl⟩

/-- C5: a `wait` whose condition string begins with the word `not` takes the
remainder (left-stripped, defaulting to `present` when empty) as the base
condition and inverts the wait through the driver's `until_not` primitive:
over exception-free polls it succeeds exactly when the driver reports the
base condition not holding at some poll, and it times out (with the enriched
`TimeoutException`) while the base condition keeps holding. -/
theorem c5_not_negates_wait (fe : FutureElement) (condition : String)
    (arg : Option String) (base : String) (meth : CondMeth) (sel : By)
    (val : String)
    (hstart : startswith condition "not" = true)
    (htok : firstTok condition = some "not")
    (hbase : base = (if lstrip (condition.drop 3) = "" then "present"
                     else lstrip (condition.drop 3)))
    (hmeth : condMeth base = some meth)
    (harity : arityBad meth arg = false)
    (hsel : get_selector selectors fe._kwargs = .ok (sel, val))
    (hok : ∀ p ∈ wpolls fe._browser meth sel val arg, ∃ v, p = .ok v) :
    parseCondition condition = .ok (true, base) ∧
    ((∃ w fe2 log, fe.wait condition arg = (.ok (w, fe2), log)) ↔
      ∃ p ∈ wpolls fe._browser meth sel val arg, ∃ v, p = .ok v ∧
        v.truthy = false) ∧
    ((∀ p ∈ wpolls fe._browser meth sel val arg, ∀ v, p = .ok v →
        v.truthy = true) →
      fe.wait condition arg =
        (.error ⟨"TimeoutException",
           enrichedMsg fe._kwargs true base arg ⟨"TimeoutException", ""⟩⟩,
         List.replicate (wpolls fe._browser meth sel val arg).length
           (DriverCall.condPoll sel val))) := by
  have hparse2 : parseCondition condition = .ok (true, base) := by
    unfold parseCondition
    rw [htok]
    simp [hbase]
  have hkey : fe.wait condition arg =
      (match (untilNotLoop (wpolls fe._browser meth sel val arg)).1 with
       | .ok v => .ok (⟨v⟩, ⟨fe._browser, fe._kwargs, some ⟨v⟩⟩)
       | .error e =>
         if isWebDriverException e.ty then
           Except.error ⟨e.ty, enrichedMsg fe._kwargs true base arg e⟩
         else Except.error e,
       List.replicate (untilNotLoop (wpolls fe._browser meth sel val arg)).2
         (DriverCall.condPoll sel val)) := by
    cases hcase : (untilNotLoop (wpolls fe._browser meth sel val arg)).1 with
    | ok v =>
      simp [FutureElement.wait, waitResolve, hparse2, hmeth, hsel, harity,
        hcase]
    | error e =>
      by_cases hw2 : isWebDriverException e.ty = true
      · simp [FutureElement.wait, waitResolve, hparse2, hmeth, hsel, harity,
          hcase, hw2]
      · simp [FutureElement.wait, waitResolve, hparse2, hmeth, hsel, harity,
          hcase, hw2]
  refine ⟨hparse2, ?_, ?_⟩
  · rw [← untilNotLoop_fst_ok_iff _ hok]
    constructor
    · rintro ⟨w, fe2, log, hwx⟩
      rcases hcase : (untilNotLoop (wpolls fe._browser meth sel val arg)).1
        with e | v
      · rw [hkey, hcase] at hwx
        by_cases hw2 : isWebDriverException e.ty = true
        · simp [hw2] at hwx
        · simp [hw2] at hwx
      · exact ⟨v, rfl⟩
    · rintro ⟨v, hv⟩
      refine ⟨⟨v⟩, ⟨fe._browser, fe._kwargs, some ⟨v⟩⟩,
        List.replicate (untilNotLoop (wpolls fe._browser meth sel val arg)).2
          (DriverCall.condPoll sel val), ?_⟩
      rw [hkey, hv]
  · intro hall
    have ht := untilNotLoop_timeout (wpolls fe._browser meth sel val arg)
      hall hok
    rw [hkey, ht]
    rfl

/-- Witness for C5: with a driver clickable on the first poll and not on the
second, `wait("not clickable")` succeeds; with a driver that stays clickable
for every poll, it times out with the enriched negated message. -/
theorem c5_not_negates_wait_witness :
    parseCondition "not clickable" = .ok (true, "clickable") ∧
    (∃ w fe2 log,
      (Browser.elem bClickThenNot none [("css", "x")]).wait "not clickable"
        none = (.ok (w, fe2), log)) ∧
    (Browser.elem bAlwaysClick none [("css", "x")]).wait "not clickable" none =
      (.error ⟨"TimeoutException",
         "error waiting for 'css: x' to be not clickable: TimeoutException "⟩,
       [DriverCall.condPoll .CSS_SELECTOR "x"]) := by
  have hok1 : ∀ p ∈ wpolls (Browser.elem bClickThenNot none
      [("css", "x")])._browser .clickable By.CSS_SELECTOR "x" none,
      ∃ v, p = .ok v := by
    intro p hp
    rcases hp with _ | ⟨_, hp⟩
    · exact ⟨.elem elemA, rfl⟩
    · rcases hp with _ | ⟨_, hp⟩
      · exact ⟨.bool false, rfl⟩
      · cases hp
  have h1 := c5_not_negates_wait (Browser.elem bClickThenNot none
    [("css", "x")]) "not clickable" none "clickable" .clickable
    By.CSS_SELECTOR "x" rfl rfl rfl rfl rfl rfl hok1
  have hok2 : ∀ p ∈ wpolls (Browser.elem bAlwaysClick none
      [("css", "x")])._browser .clickable By.CSS_SELECTOR "x" none,
      ∃ v, p = .ok v := by
    intro p hp
    rcases hp with _ | ⟨_, hp⟩
    · exact ⟨.elem elemA, rfl⟩
    · cases hp
  have h2 := c5_not_negates_wait (Browser.elem bAlwaysClick none
    [("css", "x")]) "not clickable" none "clickable" .clickable
    By.CSS_SELECTOR "x" rfl rfl rfl rfl rfl rfl hok2
  have hall2 : ∀ p ∈ wpolls (Browser.elem bAlwaysClick none
      [("css", "x")])._browser .clickable By.CSS_SELECTOR "x" none,
      ∀ v, p = .ok v → v.truthy = true := by
    intro p hp v hv
    rcases hp with _ | ⟨_, hp⟩
    · injection hv with h3
      rw [← h3]
      rfl
    · cases hp
  refine ⟨h1.1, ?_, ?_⟩
  · refine h1.2.1.mpr ⟨.ok (.bool false), ?_, .bool false, rfl, rfl⟩
    exact List.Mem.tail _ (List.Mem.head _)
  · exact h2.2.2 hall2

/-- C7: the text-presence predicate returns false (so the poll retries)
when the lookup raises staleness, and on a successful lookup returns the
element exactly when its text is non-empty (no target) or contains the
target, false otherwise; consequently, with a driver raising staleness on
the first poll and succeeding on the second, the overall `wait("text")`
returns the element. -/
theorem c7_text_predicate :
    (∀ (sel : By) (val : String) (t : Option String) (st : DriverState)
       (ex : Exc),
      st.find sel val = .error ex → ex.ty = "StaleElementReferenceException" →
      element_containing_text sel val t st = .ok (.bool false)) ∧
    (∀ (sel : By) (val : String) (st : DriverState) (e : Element),
      st.find sel val = .ok e →
      element_containing_text sel val none st =
        (if e.text ≠ "" then Except.ok (Value.elem e)
         else Except.ok (Value.bool false)) ∧
      (∀ t, element_containing_text sel val (some t) st =
        (if strContains e.text t then Except.ok (Value.elem e)
         else Except.ok (Value.bool false)))) ∧
    (Browser.elem bStaleThenFound none [("css", "t")]).wait "text" none =
      (.ok (⟨.elem elemA⟩,
            ⟨bStaleThenFound, [("css", "t")], some ⟨.elem elemA⟩⟩),
       [.condPoll .CSS_SELECTOR "t", .condPoll .CSS_SELECTOR "t"]) := by
  refine ⟨?_, ?_, rfl⟩
  · intro sel val t st ex hf hty
    simp [element_containing_text, hf, hty]
  · intro sel val st e hf
    exact ⟨by simp [element_containing_text, hf],
           fun t => by simp [element_containing_text, hf]⟩

/-- Witness for C7: the staleness branch at `stStale`, and the two text
outcomes at `stFound`. -/
theorem c7_text_predicate_witness :
    element_containing_text By.CSS_SELECTOR "t" none stStale =
      .ok (.bool false) ∧
    element_containing_text By.CSS_SELECTOR "t" none stFound =
      (if elemA.text ≠ "" then Except.ok (Value.elem elemA)
       else Except.ok (Value.bool false)) ∧
    element_containing_text By.CSS_SELECTOR "t" (some "lo w") stFound =
      (if strContains elemA.text "lo w" then Except.ok (Value.elem elemA)
       else Except.ok (Value.bool false)) :=
  ⟨c7_text_predicate.1 By.CSS_SELECTOR "t" none stStale staleExc rfl rfl,
   (c7_text_predicate.2.1 By.CSS_SELECTOR "t" stFound elemA rfl).1,
   (c7_text_predicate.2.1 By.CSS_SELECTOR "t" stFound elemA rfl).2 "lo w"⟩

end Bromine
